import Mathlib

set_option maxRecDepth 4000

/-
Verification of the archival reconciliation loop of `archive_yt_channel.py`.

The development is a shallow embedding of the per-item logic of
`archive_yt_channel` (src/archive_yt_channel.py).  Python strings are
modelled as `List Char` (`Chars`), the two record-store backends as an
explicit `Backend` value (set from which environment secret is present),
and all external effects (yt_dlp downloads, internetarchive `get_item` /
`upload`, the filesystem, `uuid.uuid4`) as an oracle structure `World`
whose fields give the outcome of each call the loop body can make.

The per-item body (lines 71-199 of the source) is the function `step`,
built from phase functions that mirror the source blocks:
  - `stale_check`      : lines 91-94
  - `download_phase`   : lines 95-119   (with `persist_downloaded`)
  - `upload_phase`     : lines 121-199  (with `upload_ladder` and
                         `status_check`)
`step` returns the ordered trace of observable events of the item, the
final local dict (`video`), the record-store flags for the item, whether
the local artifact file exists, the binding of the Python local `r`
(which survives across loop iterations), and whether the body fell
through, executed `continue`, or raised.

Two points of Python semantics are embedded explicitly because claims
hinge on them:
  - `load_data` builds the JSONBin client `jb` as a function local and
    does not return it, so `jb.update_bin(...)` at lines 119 and 195
    raises `NameError` in the jsonbin backend;
  - `r` at line 189 is a function local that is only assigned by a
    successful `upload(...)` call, so after a swallowed non-rate-limit
    HTTPError it is either unbound (UnboundLocalError) or stale from an
    earlier iteration.

The loop itself (`for video in tqdm(data)` with the `data` rebind at
line 202) is `loop_body_rebind`: the iterator is fixed over the list
`data` named at loop entry, the name `data` is rebound by the re-read
at line 202, which runs only when the body falls through — every
`continue` (lines 75, 113, 157, 187) skips it, and an unhandled
exception ends the loop — exactly as in Python.
-/

/-- Python strings are modelled as lists of characters. -/
abbrev Chars := List Char

/-- Substring test: does `needle` occur inside `hay`?  Models Python's
`in` operator on strings (lines 166-167 of the source). -/
def strContains (hay needle : Chars) : Bool :=
  match hay with
  | [] => needle.isEmpty
  | _ :: t => needle.isPrefixOf hay || strContains t needle

/-- The rate-limit signature test at lines 166-167:
either substring marks the error as a rate-limit class error. -/
def isRateLimitMsg (m : Chars) : Bool :=
  strContains m ("Slow Down".toList) || strContains m ("reduce your request rate".toList)

/-- Python's slice `s[:k]` for an `Int` bound `k`: a nonnegative bound
takes a prefix (clamped at the length), a negative bound drops `-k`
characters from the end (clamped at the empty string). -/
def pySliceTo (s : Chars) (k : Int) : Chars :=
  if 0 ≤ k then s.take k.toNat else s.take (s.length - (-k).toNat)

/-- Characters removed by Python's `str.strip()`. -/
def isPySpace (c : Char) : Bool :=
  c = ' ' || c = '\t' || c = '\n' || c = '\r' || c = '\x0b' || c = '\x0c'

/-- Python's `str.strip()`: drop whitespace from both ends. -/
def pyStrip (s : Chars) : Chars :=
  ((s.dropWhile isPySpace).reverse.dropWhile isPySpace).reverse

/-- The record-store backend chosen by `load_data` from whichever
storage secret is present (lines 42-55). -/
inductive Backend
  | mongodb
  | jsonbin
deriving DecidableEq, Repr

/-- One item record of the record store (the `video` dict of the loop).
`extra` holds the additional free-form fields of the dict; the keys of
the fixed fields are listed in `video_items`. -/
structure Video where
  _id : Chars
  upload_date : Chars
  title : Chars
  url : Chars
  channel_name : Chars
  downloaded : Bool
  uploaded : Bool
  extra : List (Chars × Chars)
deriving DecidableEq, Repr

/-- The per-file result of the `upload` call; the source reads
`r[0].status_code` at line 189. -/
structure UploadRes where
  status_code : Nat
deriving DecidableEq, Repr

/-- A `requests.exceptions.HTTPError`, identified by its text `str(e)`. -/
structure HTTPErr where
  msg : Chars
deriving DecidableEq, Repr

/-- The Python exceptions the loop body can raise unhandled. -/
inductive PyErr
  | nameError (n : Chars)
  | unboundLocal (n : Chars)
deriving DecidableEq, Repr

/-- How the loop body of one item ended: fell through to line 202,
executed `continue`, or raised. -/
inductive Outcome
  | ok
  | continued
  | raised (e : PyErr)
deriving DecidableEq, Repr

/-- The record-store state of one item (the two progress flags). -/
structure Store where
  downloaded : Bool
  uploaded : Bool
deriving DecidableEq, Repr

/-- Observable events of one item's handling, in execution order. -/
inductive Event
  | resetStaleDownloaded
  | downloadAttempt (withFormat : Bool)
  | persistDownloaded
  | getItem (identifier : Chars)
  | sleep60
  | uploadAttempt (identifier : Chars)
  | persistUploaded
  | deleteArtifact
deriving DecidableEq, Repr

/-- The mutable state threaded through one item's handling; the phase
functions return it together with the list of events they emitted. -/
structure ItemCore where
  video : Video
  store : Store
  fileOnDisk : Bool
  r : Option UploadRes
  outcome : Outcome
deriving DecidableEq, Repr

/-- The final result of one item's handling: the event trace in
execution order plus the final state. -/
structure ItemState where
  events : List Event
  video : Video
  store : Store
  fileOnDisk : Bool
  r : Option UploadRes
  outcome : Outcome
deriving DecidableEq, Repr

/-- Oracle for the external calls one item's handling can make.
`up n` is the outcome of the n-th `upload` call of this item,
`uuidGen n` the n-th `uuid.uuid4()` of this item, and `clean_fname`
the external Name Sanitizer imported from the (out of scope)
`clean_name` module. -/
structure World where
  fileExists : Bool
  dl1 : Except Chars Unit
  dl2 : Except Chars Unit
  curUploader : Option Chars
  up : Nat → Except HTTPErr UploadRes
  uuidGen : Nat → Chars
  clean_fname : Chars → Chars

/-- Association-list lookup on string keys (first match). -/
def dlookup (k : Chars) : List (Chars × Chars) → Option Chars
  | [] => none
  | p :: t => if p.1 = k then some p.2 else dlookup k t

/-- Left-biased choice on options, used to state lookup lemmas. -/
def oor : Option Chars → Option Chars → Option Chars
  | some a, _ => some a
  | none, b => b

/-- Python dict assignment `d[k] = v`: replace the value at an existing
key in place, else append the binding.  (On the key-unique lists built
by `dictOf` the replace-all recursion agrees with Python's dict.) -/
def dictSet : List (Chars × Chars) → Chars → Chars → List (Chars × Chars)
  | [], k, v => [(k, v)]
  | p :: t, k, v => if p.1 = k then (k, v) :: dictSet t k v else p :: dictSet t k v

/-- Python dict-literal semantics: the entries are assigned left to
right, so a later entry with the same key overrides an earlier one.
This models the `md = ...` literal with trailing `**custom_fields`
(lines 132-145). -/
def dictOf (l : List (Chars × Chars)) : List (Chars × Chars) :=
  l.foldl (fun d p => dictSet d p.1 p.2) []

/-- The items of the `video` dict that carry string values; `downloaded`
and `uploaded` (bool valued) are omitted here because the comprehension
at lines 127-131 filters them out along with `_id` anyway. -/
def video_items (v : Video) : List (Chars × Chars) :=
  [("_id".toList, v._id), ("upload_date".toList, v.upload_date),
   ("title".toList, v.title), ("url".toList, v.url),
   ("channel_name".toList, v.channel_name)] ++ v.extra

/-- The key filter of the comprehension at lines 127-131. -/
def not_excluded_key (p : Chars × Chars) : Bool :=
  !(p.1 == "_id".toList || p.1 == "downloaded".toList || p.1 == "uploaded".toList)

/-- The dict comprehension at lines 127-131: every item of the record
except `_id`, `downloaded`, `uploaded`. -/
def custom_fields (v : Video) : List (Chars × Chars) :=
  (video_items v).filter not_excluded_key

/-- `publish_date` at line 121: the date slices joined, then midnight. -/
def publish_date (v : Video) : Chars :=
  v.upload_date.take 4 ++ "-".toList ++ (v.upload_date.drop 4).take 2 ++ "-".toList
    ++ v.upload_date.drop 6 ++ " 00:00:00".toList

/-- The synthesized `description` metadata value (lines 137-139). -/
def descr_field (v : Video) : Chars :=
  "Title: ".toList ++ v.title ++ "\nPublished on: ".toList ++ publish_date v
    ++ "\nOriginal video URL: ".toList ++ v.url

/-- The metadata bundle `md` (lines 132-145): fixed and synthesized
entries first, the forwarded custom fields merged last. -/
def upload_metadata (v : Video) : List (Chars × Chars) :=
  dictOf ([("collection".toList, "opensource_movies".toList),
           ("mediatype".toList, "movies".toList),
           ("description".toList, descr_field v),
           ("subject".toList, v.channel_name),
           ("id".toList, v._id)] ++ custom_fields v)

/-- The date-and-channel stem of the archival identifier (line 123). -/
def identifier_base (v : Video) : Chars :=
  v.upload_date.take 4 ++ "-".toList ++ (v.upload_date.drop 4).take 2 ++ "-".toList
    ++ v.upload_date.drop 6 ++ "_".toList ++ v.channel_name

/-- The identifier before whitespace stripping (lines 123-125): the stem,
a separator, and the slice `clean_name[:left_len]` of the sanitized
title, where `left_len = 80 - (len(stem) + 1)` may be negative. -/
def identifier_pre (clean_name : Chars) (v : Video) : Chars :=
  let ident := identifier_base v
  let left_len : Int := 80 - (ident.length + 1)
  ident ++ "_".toList ++ pySliceTo clean_name left_len

/-- The identifier actually used by the upload phase (line 149):
`identifier.replace(' ', '').strip()`. -/
def identifier_final (clean_name : Chars) (v : Video) : Chars :=
  pyStrip ((identifier_pre clean_name v).filter (fun c => c ≠ ' '))

/-- Sequencing of phases: run `f` only if the state fell through so
far; a `continue` or a raised exception skips the rest of the loop
body.  The emitted events accumulate in execution order. -/
def andThenE (p : ItemCore × List Event) (f : ItemCore → ItemCore × List Event) :
    ItemCore × List Event :=
  match p.1.outcome with
  | .ok => ((f p.1).1, p.2 ++ (f p.1).2)
  | _ => p

/-- Lines 91-94: a `downloaded=true, uploaded=false` record whose local
artifact file is absent has its (local) `downloaded` flag cleared. -/
def stale_check (c : ItemCore) : ItemCore × List Event :=
  if c.video.downloaded && !c.video.uploaded && !c.fileOnDisk then
    ({ c with video := { c.video with downloaded := false } }, [.resetStaleDownloaded])
  else (c, [])

/-- Lines 115-119: persist `downloaded=true` after a successful
download.  The mongodb branch updates the store only (the local dict is
left untouched); the jsonbin branch sets the local flag and then calls
`jb.update_bin`, where `jb` is a local of `load_data` that was never
returned, so the call raises `NameError`. -/
def persist_downloaded (be : Backend) (c : ItemCore) : ItemCore × List Event :=
  match be with
  | .mongodb =>
    ({ c with store := { c.store with downloaded := true } }, [.persistDownloaded])
  | .jsonbin =>
    ({ c with video := { c.video with downloaded := true },
              outcome := .raised (.nameError "jb".toList) }, [])

/-- Lines 95-119: the download phase.  A first attempt under the format
spec, on `DownloadError` a fallback attempt with no format constraint,
on a second failure `continue`; on success the file exists locally and
`downloaded=true` is persisted. -/
def download_phase (be : Backend) (w : World) (c : ItemCore) : ItemCore × List Event :=
  if !c.video.downloaded then
    match w.dl1 with
    | .ok _ =>
      let p := persist_downloaded be { c with fileOnDisk := true }
      (p.1, [.downloadAttempt true] ++ p.2)
    | .error _ =>
      match w.dl2 with
      | .ok _ =>
        let p := persist_downloaded be { c with fileOnDisk := true }
        (p.1, [.downloadAttempt true, .downloadAttempt false] ++ p.2)
      | .error _ =>
        ({ c with outcome := .continued },
         [.downloadAttempt true, .downloadAttempt false])
  else (c, [])

/-- How the try/except ladder of lines 163-187 ended. -/
inductive LadderRes
  | got (r : UploadRes)
  | exhausted
  | fellThrough
deriving DecidableEq, Repr

/-- Lines 163-187: the upload attempt ladder under identifier `ident`.
Attempt 1; on an HTTPError carrying a rate-limit signature: sleep 60s,
attempt 2 under the same identifier; on a further HTTPError: attempt 3
under a fresh uuid (`w.uuidGen nUuid`); on a third HTTPError the ladder
is exhausted (`continue`).  On an HTTPError without the signature
nothing more is tried and control falls through to line 189. -/
def upload_ladder (w : World) (nUuid : Nat) (ident : Chars) : List Event × LadderRes :=
  match w.up 0 with
  | .ok r => ([.uploadAttempt ident], .got r)
  | .error e =>
    if isRateLimitMsg e.msg then
      match w.up 1 with
      | .ok r => ([.uploadAttempt ident, .sleep60, .uploadAttempt ident], .got r)
      | .error _ =>
        match w.up 2 with
        | .ok r =>
          ([.uploadAttempt ident, .sleep60, .uploadAttempt ident,
            .uploadAttempt (w.uuidGen nUuid)], .got r)
        | .error _ =>
          ([.uploadAttempt ident, .sleep60, .uploadAttempt ident,
            .uploadAttempt (w.uuidGen nUuid)], .exhausted)
    else
      ([.uploadAttempt ident], .fellThrough)

/-- Lines 189-199: the status check on `r`.  On a first-file status code
of 200 `uploaded=true` is persisted (mongodb updates the store; jsonbin
sets the local flag and raises `NameError` on the unreturned `jb`) and
then the artifact is unlinked; on any other status the record and the
file are left alone. -/
def status_check (be : Backend) (r : UploadRes) (c : ItemCore) : ItemCore × List Event :=
  if r.status_code = 200 then
    match be with
    | .mongodb =>
      ({ c with store := { c.store with uploaded := true },
                fileOnDisk := false, r := some r },
       [.persistUploaded, .deleteArtifact])
    | .jsonbin =>
      ({ c with video := { c.video with uploaded := true },
                r := some r,
                outcome := .raised (.nameError "jb".toList) }, [])
  else
    ({ c with r := some r }, [])

/-- What follows the ladder: a returned result goes through the status
check; an exhausted ladder continues to the next item; a fall-through
(non-rate-limit HTTPError swallowed at line 166) reaches line 189 with
`r` still holding whatever an earlier iteration left there — unbound on
the first occurrence. -/
def after_ladder (be : Backend) (c : ItemCore) (lr : LadderRes) (evs : List Event) :
    ItemCore × List Event :=
  match lr with
  | .got r =>
    let p := status_check be r c
    (p.1, evs ++ p.2)
  | .exhausted => ({ c with outcome := .continued }, evs)
  | .fellThrough =>
    match c.r with
    | none => ({ c with outcome := .raised (.unboundLocal "r".toList) }, evs)
    | some rOld =>
      let p := status_check be rOld c
      (p.1, evs ++ p.2)

/-- Lines 147-199: the upload phase.  Skipped when the local dict says
`uploaded=true`.  Otherwise the stripped identifier is computed, the
archive is queried for an existing entry, an entry by a different owner
forces a fresh uuid identifier while one by the configured owner makes
the item `continue`; then the attempt ladder runs and its result is
handled by `after_ladder`. -/
def upload_phase (be : Backend) (email : Chars) (w : World) (c : ItemCore) :
    ItemCore × List Event :=
  if c.video.uploaded then (c, [])
  else
    let ident := identifier_final (w.clean_fname c.video.title) c.video
    match w.curUploader with
    | some owner =>
      if owner ≠ email then
        let lp := upload_ladder w 1 (w.uuidGen 0)
        after_ladder be c lp.2 (Event.getItem ident :: lp.1)
      else
        ({ c with outcome := .continued }, [Event.getItem ident])
    | none =>
      let lp := upload_ladder w 0 ident
      after_ladder be c lp.2 (Event.getItem ident :: lp.1)

/-- Lines 71-199: the whole loop body for one item.  `rPrev` is the
binding of the local `r` left by earlier iterations (none at the first
item).  A skip-list hit leaves everything untouched and continues. -/
def step (be : Backend) (email : Chars) (skip : List Chars) (w : World)
    (rPrev : Option UploadRes) (v : Video) : ItemState :=
  let c0 : ItemCore :=
    { video := v, store := { downloaded := v.downloaded, uploaded := v.uploaded },
      fileOnDisk := w.fileExists, r := rPrev, outcome := .ok }
  if skip.contains v._id then
    { events := [], video := c0.video, store := c0.store, fileOnDisk := c0.fileOnDisk,
      r := c0.r, outcome := .continued }
  else
    let p := andThenE (andThenE (stale_check c0) (download_phase be w)) (upload_phase be email w)
    { events := p.2, video := p.1.video, store := p.1.store, fileOnDisk := p.1.fileOnDisk,
      r := p.1.r, outcome := p.1.outcome }

/-- The identifiers of the upload attempts in a trace, in order. -/
def uploadIds : List Event → List Chars
  | [] => []
  | .uploadAttempt i :: t => i :: uploadIds t
  | _ :: t => uploadIds t

/-- Events of the reconciliation loop itself: one `handled` per item the
iterator yields, one `loadData` for the re-read at line 202. -/
inductive PassEvent
  | loadData
  | handled (v : Video)
deriving DecidableEq, Repr

/-- The `for video in tqdm(data)` loop with the rebinding
`... , data = load_data()` at line 202.  In Python the iterator is fixed
over the list object the name `data` held at loop entry; rebinding the
name inside the body changes only what later body code sees under
`data` (threaded here as `dataVar`), never the iteration itself.
`body i` abstracts the outcome of the per-item state machine (`step`)
for the i-th iterated item: only a body that falls through to the
bottom of the loop reaches the re-read at line 202; each of the four
`continue` statements (lines 75, 113, 157, 187) skips it, and an
unhandled exception terminates the whole loop, leaving the remaining
items unhandled.  `i` counts iterated items, `k` counts `load_data`
calls executed so far, and `reload k` is the list the k-th re-read
returns. -/
def loop_body_rebind :
    List Video → List Video → (Nat → Outcome) → (Nat → List Video) → Nat → Nat →
      List PassEvent
  | [], _dataVar, _body, _reload, _i, _k => []
  | v :: rest, dataVar, body, reload, i, k =>
    match body i with
    | .ok => .handled v :: .loadData :: loop_body_rebind rest (reload k) body reload (i + 1) (k + 1)
    | .continued => .handled v :: loop_body_rebind rest dataVar body reload (i + 1) k
    | .raised _ => [.handled v]

/-- One reconciliation pass as entered at line 69: the iterator and the
name `data` both start from the initially loaded list, no item has been
iterated and no in-loop re-read has run yet. -/
def archive_pass (data : List Video) (body : Nat → Outcome)
    (reload : Nat → List Video) : List PassEvent :=
  loop_body_rebind data data body reload 0 0

/-- Reference trace of one pass, computed from the initial snapshot and
the per-item outcomes alone — no reload results, no `data` rebinding. -/
def passTraceRef (body : Nat → Outcome) : Nat → List Video → List PassEvent
  | _, [] => []
  | i, v :: rest =>
    match body i with
    | .ok => .handled v :: .loadData :: passTraceRef body (i + 1) rest
    | .continued => .handled v :: passTraceRef body (i + 1) rest
    | .raised _ => [.handled v]

/-- How often line 202 runs on a pass over `data`: once per item whose
body falls through; `continue` contributes nothing and an unhandled
exception stops the loop. -/
def reloadCount (body : Nat → Outcome) : Nat → List Video → Nat
  | _, [] => 0
  | i, _ :: rest =>
    match body i with
    | .ok => reloadCount body (i + 1) rest + 1
    | .continued => reloadCount body (i + 1) rest
    | .raised _ => 0

/-- The items the pass actually applied the state machine to. -/
def handledVideos : List PassEvent → List Video
  | [] => []
  | .handled v :: t => v :: handledVideos t
  | .loadData :: t => handledVideos t

/-- How many times the pass re-read the record store inside the loop. -/
def countReloads : List PassEvent → Nat
  | [] => 0
  | .loadData :: t => countReloads t + 1
  | .handled _ :: t => countReloads t

/-- A concrete archival account identity for the concrete runs. -/
def emailA : Chars := "user@example.com".toList

/-- A deterministic stand-in for `uuid.uuid4()`: distinct per call. -/
def uuidN (n : Nat) : Chars := 'u' :: List.replicate n 'x'

/-- A concrete base record for the concrete runs. -/
def vBase : Video :=
  { _id := "v1".toList, upload_date := "20230115".toList, title := "t".toList,
    url := "q".toList, channel_name := "chan".toList,
    downloaded := false, uploaded := false, extra := [] }

/-- A record already downloaded (artifact expected on disk). -/
def vDone : Video := { vBase with downloaded := true }

/-- A record marked uploaded but not downloaded. -/
def vOddFlags : Video := { vBase with uploaded := true }

/-- A record with both flags set. -/
def vClosed : Video := { vBase with downloaded := true, uploaded := true }

/-- A world where the download succeeds at once, no archival entry
exists under the identifier, and the upload returns status 200. -/
def wHappy : World :=
  { fileExists := false, dl1 := .ok (), dl2 := .ok (), curUploader := none,
    up := fun _ => .ok { status_code := 200 }, uuidGen := uuidN,
    clean_fname := fun t => t }

/-- The happy world with the artifact already on disk. -/
def wHave : World := { wHappy with fileExists := true }

/-- A world where every upload raises an HTTPError without a rate-limit
signature; the artifact is on disk. -/
def wPlain404 : World :=
  { wHave with up := fun _ => .error { msg := "404 Client Error: Not Found".toList } }

/-- A world where both download attempts fail and no file is on disk. -/
def wNoFile : World :=
  { wHappy with dl1 := .error "unavailable".toList, dl2 := .error "unavailable".toList }

/-- A second record, and its peer-updated variant, for the pass model. -/
def vNext : Video := { vBase with _id := "v2".toList }

/-- The peer-updated variant of `vNext`. -/
def vNextUploaded : Video := { vNext with uploaded := true }

/-- A record-store reload that always returns the peer-updated list. -/
def reloadPeer : Nat → List Video := fun _ => [vBase, vNextUploaded]

/-- Concrete per-item outcomes for the pass model: the first iterated
item hits a `continue` path, every later one falls through. -/
def bodyCE : Nat → Outcome := fun i => if i = 0 then .continued else .ok

/-- A record whose channel name already overflows the 80-character
identifier ceiling. -/
def vLongChan : Video := { vBase with channel_name := List.replicate 69 'c' }

/-- A record carrying a free-form `collection` field. -/
def vExtra : Video := { vBase with extra := [("collection".toList, "mycoll".toList)] }

/-- A world where the upload returns without exception but with a
non-200 status code; the artifact is on disk. -/
def wNon200 : World := { wHave with up := fun _ => .ok { status_code := 503 } }

/-- A world where the archival entry under the identifier already
exists and belongs to the configured account. -/
def wSameOwner : World := { wHave with curUploader := some emailA }

/-- A world where the archival entry under the identifier belongs to a
different account. -/
def wOtherOwner : World := { wHave with curUploader := some "someone.else@example.org".toList }

/-- The artifact/flag agreement for one item: the local artifact file
exists exactly when the record store says downloaded-but-not-uploaded. -/
def coreInv (c : ItemCore) : Prop :=
  c.fileOnDisk = (c.store.downloaded && !c.store.uploaded)

theorem dlookup_append (k : Chars) (a b : List (Chars × Chars)) :
    dlookup k (a ++ b) = oor (dlookup k a) (dlookup k b) := by
  induction a with
  | nil => simp [dlookup, oor]
  | cons p t ih =>
    by_cases h : p.1 = k <;> simp [dlookup, h, ih, oor]

theorem dictSet_lookup_self (d : List (Chars × Chars)) (k v : Chars) :
    dlookup k (dictSet d k v) = some v := by
  induction d with
  | nil => simp [dictSet, dlookup]
  | cons p t ih =>
    by_cases h : p.1 = k <;> simp [dictSet, h, dlookup, ih]

theorem dictSet_lookup_ne (d : List (Chars × Chars)) (k v k' : Chars) (h : k' ≠ k) :
    dlookup k' (dictSet d k v) = dlookup k' d := by
  induction d with
  | nil => simp [dictSet, dlookup, h.symm]
  | cons p t ih =>
    by_cases hp : p.1 = k
    · simp [dictSet, hp, dlookup, h.symm, ih]
    · by_cases hq : p.1 = k' <;> simp [dictSet, hp, dlookup, hq, h, ih]

theorem dictOf_go_lookup (l d : List (Chars × Chars)) (k : Chars) :
    dlookup k (l.foldl (fun d p => dictSet d p.1 p.2) d)
      = oor (dlookup k l.reverse) (dlookup k d) := by
  induction l generalizing d with
  | nil => simp [dlookup, oor]
  | cons p t ih =>
    simp only [List.foldl_cons, List.reverse_cons]
    rw [ih, dlookup_append]
    by_cases h : p.1 = k
    · subst h
      rw [dictSet_lookup_self]
      have hp : dlookup p.1 [p] = some p.2 := by simp [dlookup]
      rw [hp]
      cases dlookup p.1 t.reverse <;> simp [oor]
    · rw [dictSet_lookup_ne _ _ _ _ (fun hh => h hh.symm)]
      have hp : dlookup k [p] = none := by simp [dlookup, h]
      rw [hp]
      cases dlookup k t.reverse <;> simp [oor]

theorem dictOf_lookup (l : List (Chars × Chars)) (k : Chars) :
    dlookup k (dictOf l) = dlookup k l.reverse := by
  unfold dictOf
  rw [dictOf_go_lookup]
  cases dlookup k l.reverse <;> simp [oor, dlookup]

theorem dlookup_eq_some_of_mem (l : List (Chars × Chars)) (k v : Chars)
    (hnd : (l.map Prod.fst).Nodup) (hmem : (k, v) ∈ l) :
    dlookup k l = some v := by
  induction l with
  | nil => cases hmem
  | cons p t ih =>
    rcases List.mem_cons.mp hmem with heq | hm
    · simp [dlookup, ← heq]
    · have hk : p.1 ≠ k := by
        intro hpk
        have : k ∈ t.map Prod.fst := List.mem_map.mpr ⟨(k, v), hm, rfl⟩
        rw [List.map_cons] at hnd
        exact (List.nodup_cons.mp hnd).1 (hpk ▸ this)
      simp [dlookup, hk, ih (List.nodup_cons.mp (List.map_cons Prod.fst p t ▸ hnd)).2 hm]

/-- C10: a free-form extra field keyed `collection`, `mediatype`,
`description`, `subject` or `id` overrides the fixed or synthesized
entry of the metadata bundle, because `**custom_fields` is merged last
into the dict literal at lines 132-145. -/
theorem customFieldOverrides (v : Video) (k val : Chars)
    (hk : k = "collection".toList ∨ k = "mediatype".toList ∨ k = "description".toList
        ∨ k = "subject".toList ∨ k = "id".toList)
    (hnd : (v.extra.map Prod.fst).Nodup)
    (hmem : (k, val) ∈ v.extra) :
    dlookup k (upload_metadata v) = some val := by
  have hpred : not_excluded_key (k, val) = true := by
    rcases hk with rfl | rfl | rfl | rfl | rfl <;> rfl
  have hmemF : (k, val) ∈ v.extra.filter not_excluded_key :=
    List.mem_filter.mpr ⟨hmem, hpred⟩
  have hndF : ((v.extra.filter not_excluded_key).map Prod.fst).Nodup :=
    List.Nodup.sublist ((List.filter_sublist v.extra).map Prod.fst) hnd
  have hrev : dlookup k (v.extra.filter not_excluded_key).reverse = some val := by
    refine dlookup_eq_some_of_mem _ k val ?_ (List.mem_reverse.mpr hmemF)
    rw [List.map_reverse]
    exact List.nodup_reverse.mpr hndF
  unfold upload_metadata custom_fields video_items
  rw [dictOf_lookup, List.filter_append, List.reverse_append, dlookup_append,
    List.reverse_append, dlookup_append, hrev]
  simp [oor]

/-- Witness for C10 at a record carrying a free-form `collection`
field. -/
theorem customFieldOverridesWitness :
    dlookup "collection".toList (upload_metadata vExtra) = some "mycoll".toList :=
  customFieldOverrides vExtra "collection".toList "mycoll".toList (Or.inl rfl)
    (by decide) (by decide)

/-- C2 (code bug): in the jsonbin backend a successful download does
not persist `downloaded=true` — the persist call raises `NameError`
because `jb` is a local of `load_data` that is never returned (lines
51, 119); the mongodb backend persists it immediately, before any
upload-phase event. -/
theorem jsonbinDownloadPersistRaises :
    (step .jsonbin emailA [] wHappy none vBase).outcome
        = .raised (.nameError "jb".toList) ∧
    Event.persistDownloaded ∉ (step .jsonbin emailA [] wHappy none vBase).events ∧
    (step .mongodb emailA [] wHappy none vBase).events
      = [.downloadAttempt true, .persistDownloaded,
         .getItem "2023-01-15_chan_t".toList, .uploadAttempt "2023-01-15_chan_t".toList,
         .persistUploaded, .deleteArtifact] := by decide

/-- C7 (code bug): on a 200 response the jsonbin persist of
`uploaded=true` raises `NameError` on the unreturned `jb` (line 195)
before the artifact can be deleted; the mongodb backend persists then
deletes, and on a non-200 response without exception nothing is
mutated, the artifact is retained and the body ends without raising. -/
theorem jsonbinUploadPersistRaises :
    (step .jsonbin emailA [] wHave none vDone).outcome
        = .raised (.nameError "jb".toList) ∧
    Event.persistUploaded ∉ (step .jsonbin emailA [] wHave none vDone).events ∧
    Event.deleteArtifact ∉ (step .jsonbin emailA [] wHave none vDone).events ∧
    (step .jsonbin emailA [] wHave none vDone).fileOnDisk = true ∧
    (step .mongodb emailA [] wHave none vDone).events
      = [.getItem "2023-01-15_chan_t".toList, .uploadAttempt "2023-01-15_chan_t".toList,
         .persistUploaded, .deleteArtifact] ∧
    (step .mongodb emailA [] wNon200 none vDone).store
      = { downloaded := true, uploaded := false } ∧
    (step .mongodb emailA [] wNon200 none vDone).fileOnDisk = true ∧
    (step .mongodb emailA [] wNon200 none vDone).outcome = .ok ∧
    Event.deleteArtifact ∉ (step .mongodb emailA [] wNon200 none vDone).events := by decide

/-- C1 counterexample: a first upload attempt raising an HTTPError
without a rate-limit signature is not retried at all — no 60s sleep, no
second or third attempt — and on its first occurrence the body raises
UnboundLocalError at `r[0].status_code` (line 189) instead of
completing the pass. -/
theorem nonRateLimitNoRetryCE :
    (step .mongodb emailA [] wPlain404 none vDone).outcome
        = .raised (.unboundLocal "r".toList) ∧
    Event.sleep60 ∉ (step .mongodb emailA [] wPlain404 none vDone).events ∧
    uploadIds (step .mongodb emailA [] wPlain404 none vDone).events
      = ["2023-01-15_chan_t".toList] ∧
    isRateLimitMsg "404 Client Error: Not Found".toList = false := by decide

/-- C3 counterexample: with a 69-character channel name the stem is
already 80 characters long, `left_len` is negative, and the Python
slice `clean_name[:left_len]` keeps all but the last character of the
sanitized title, so the pre-strip identifier has 82 characters. -/
theorem identifierLengthCE :
    80 < (identifier_pre "ab".toList vLongChan).length := by decide

/-- C4 counterexample: with the first item hitting a `continue` path,
the pass re-reads the store only once for two handled items (the
`continue` skips line 202), and it handles the items of the initially
loaded list even though the one re-read returned a list whose second
record was already marked uploaded by a peer — the iterator of the
`for` loop is fixed at loop entry, so the remainder of the pass does
not observe the reloaded list. -/
theorem passReloadIgnoredCE :
    archive_pass [vBase, vNext] bodyCE reloadPeer
      = [.handled vBase, .handled vNext, .loadData] ∧
    countReloads (archive_pass [vBase, vNext] bodyCE reloadPeer) = 1 ∧
    handledVideos (archive_pass [vBase, vNext] bodyCE reloadPeer) = [vBase, vNext] ∧
    reloadPeer 0 = [vBase, vNextUploaded] ∧
    vNext.uploaded = false ∧ vNextUploaded.uploaded = true ∧
    vNext ≠ vNextUploaded := by decide

/-- C5 counterexample: a record with `uploaded=true` but
`downloaded=false` is still downloaded (and `downloaded=true` is
persisted) because the download guard at line 95 never consults
`uploaded`. -/
theorem uploadedStillDownloadedCE :
    vOddFlags.uploaded = true ∧
    Event.downloadAttempt true ∈ (step .mongodb emailA [] wHappy none vOddFlags).events ∧
    (step .mongodb emailA [] wHappy none vOddFlags).store.downloaded = true ∧
    vOddFlags.downloaded = false := by decide

/-- C6 counterexample: after the staleness reset (which is never
persisted) and two failed download attempts, the item's handling ends
with `downloaded=true, uploaded=false` still in the record store and no
artifact on disk — the claimed iff fails. -/
theorem staleArtifactInvariantCE :
    (step .mongodb emailA [] wNoFile none vDone).outcome = .continued ∧
    (step .mongodb emailA [] wNoFile none vDone).store
      = { downloaded := true, uploaded := false } ∧
    (step .mongodb emailA [] wNoFile none vDone).fileOnDisk = false := by decide

/-- C3 amended: whenever the date-and-channel stem plus one separator
fits inside the 80-character ceiling, the pre-strip identifier has at
most 80 characters (the slice bound is nonnegative and caps the title
part); the bound fails only when the stem itself overflows. -/
theorem identifierLengthBound (clean_name : Chars) (v : Video)
    (h : (identifier_base v).length + 1 ≤ 80) :
    (identifier_pre clean_name v).length ≤ 80 := by
  have hk : (0 : Int) ≤ 80 - ((identifier_base v).length + 1) := by omega
  have hlen : ("_".toList : Chars).length = 1 := rfl
  simp only [identifier_pre, pySliceTo, hk, if_true, List.length_append, List.length_take,
    hlen]
  omega

/-- Witness for the amended C3 at a record whose stem fits. -/
theorem identifierLengthBoundWitness :
    (identifier_base vBase).length + 1 ≤ 80 ∧
    (identifier_pre "Cafe_Talk".toList vBase).length ≤ 80 :=
  ⟨by decide, identifierLengthBound "Cafe_Talk".toList vBase (by decide)⟩

/-- C9: a record flagged `downloaded=true, uploaded=false` whose
expected artifact file is absent first has the stale flag reset and
then, immediately after, a fresh download attempted. -/
theorem staleResetBeforeRedownload (be : Backend) (email : Chars) (skip : List Chars)
    (w : World) (rPrev : Option UploadRes) (v : Video)
    (hskip : v._id ∉ skip)
    (hd : v.downloaded = true) (hu : v.uploaded = false) (hf : w.fileExists = false) :
    (step be email skip w rPrev v).events.take 2
      = [.resetStaleDownloaded, .downloadAttempt true] := by
  cases be <;> rcases hdl1 : w.dl1 with u | a <;> rcases hdl2 : w.dl2 with u2 | b <;>
    simp [step, andThenE, stale_check, download_phase, persist_downloaded,
      hskip, hd, hu, hf, hdl1, hdl2, List.take_succ_cons, List.take_zero, List.take]

/-- Witness for C9. -/
theorem staleResetBeforeRedownloadWitness :
    vDone._id ∉ ([] : List Chars) ∧ vDone.downloaded = true ∧
    vDone.uploaded = false ∧ wNoFile.fileExists = false ∧
    (step .mongodb emailA [] wNoFile none vDone).events.take 2
      = [.resetStaleDownloaded, .downloadAttempt true] :=
  ⟨by decide, rfl, rfl, rfl,
    staleResetBeforeRedownload .mongodb emailA [] wNoFile none vDone (by decide) rfl rfl rfl⟩

/-- C5 amended: a record with both `uploaded=true` and `downloaded=true`
is never reprocessed — its handling emits no events (no download, no
upload, no persist) and leaves the record store, the local dict, the
local `r` and the filesystem untouched; hence a pass over a list of
such items performs nothing.  A record with `uploaded=true` but
`downloaded=false` is however still downloaded (see the
counterexample). -/
theorem uploadedAndDownloadedUntouched (be : Backend) (email : Chars) (skip : List Chars)
    (w : World) (rPrev : Option UploadRes) (v : Video)
    (hu : v.uploaded = true) (hd : v.downloaded = true) :
    (step be email skip w rPrev v).events = [] ∧
    (step be email skip w rPrev v).video = v ∧
    (step be email skip w rPrev v).store
      = { downloaded := v.downloaded, uploaded := v.uploaded } ∧
    (step be email skip w rPrev v).fileOnDisk = w.fileExists ∧
    (step be email skip w rPrev v).r = rPrev := by
  by_cases hsk : v._id ∈ skip <;>
    simp [step, andThenE, stale_check, download_phase, upload_phase, hsk, hu, hd]

/-- Witness for the amended C5. -/
theorem uploadedAndDownloadedUntouchedWitness :
    vClosed.uploaded = true ∧ vClosed.downloaded = true ∧
    ((step .mongodb emailA [] wHave none vClosed).events = [] ∧
     (step .mongodb emailA [] wHave none vClosed).video = vClosed ∧
     (step .mongodb emailA [] wHave none vClosed).store
       = { downloaded := vClosed.downloaded, uploaded := vClosed.uploaded } ∧
     (step .mongodb emailA [] wHave none vClosed).fileOnDisk = wHave.fileExists ∧
     (step .mongodb emailA [] wHave none vClosed).r = none) :=
  ⟨rfl, rfl, uploadedAndDownloadedUntouched .mongodb emailA [] wHave none vClosed rfl rfl⟩

/-- C4 amended: the record list is re-read (line 202) only after an
item whose body falls through — the `continue` paths at lines 75, 113,
157 and 187 skip the re-read, and an unhandled exception aborts the
pass — and the `for` iterator is fixed over the initially loaded list,
so the whole observable pass trace (which items are handled and where
the re-reads run) is determined by the initial snapshot and the
per-item outcomes alone, regardless of what the reloads return: the
reloaded list only rebinds the name `data` used by later body code, and
peer mutations are not visible to the per-item decisions of the
remainder of the pass. -/
theorem passIteratesInitialSnapshot (data dVar : List Video) (body : Nat → Outcome)
    (reload : Nat → List Video) (i k : Nat) :
    loop_body_rebind data dVar body reload i k = passTraceRef body i data ∧
    countReloads (loop_body_rebind data dVar body reload i k) = reloadCount body i data := by
  induction data generalizing dVar i k with
  | nil => simp [loop_body_rebind, passTraceRef, reloadCount, countReloads]
  | cons v rest ih =>
    cases hb : body i with
    | ok =>
      obtain ⟨ih1, ih2⟩ := ih (reload k) (i + 1) (k + 1)
      constructor
      · simp [loop_body_rebind, passTraceRef, hb, ih1]
      · simp [loop_body_rebind, countReloads, reloadCount, hb, ih2]
    | continued =>
      obtain ⟨ih1, ih2⟩ := ih dVar (i + 1) k
      constructor
      · simp [loop_body_rebind, passTraceRef, hb, ih1]
      · simp [loop_body_rebind, countReloads, reloadCount, hb, ih2]
    | raised e =>
      simp [loop_body_rebind, passTraceRef, countReloads, reloadCount, hb]

theorem uploadIds_append (a b : List Event) :
    uploadIds (a ++ b) = uploadIds a ++ uploadIds b := by
  induction a with
  | nil => rfl
  | cons e t ih => cases e <;> simp [uploadIds, ih]

theorem uploadIds_status_check (be : Backend) (r : UploadRes) (c : ItemCore) :
    uploadIds (status_check be r c).2 = [] := by
  unfold status_check
  by_cases h : r.status_code = 200
  · cases be <;> simp [h, uploadIds]
  · simp [h, uploadIds]

theorem uploadIds_after_ladder (be : Backend) (c : ItemCore) (lr : LadderRes)
    (evs : List Event) :
    uploadIds (after_ladder be c lr evs).2 = uploadIds evs := by
  unfold after_ladder
  cases lr with
  | got r => simp [uploadIds_append, uploadIds_status_check]
  | exhausted => rfl
  | fellThrough =>
    cases hc : c.r with
    | none => simp [hc]
    | some rOld => simp [hc, uploadIds_append, uploadIds_status_check]

theorem uploadIds_upload_ladder (w : World) (n : Nat) (ident : Chars) :
    uploadIds (upload_ladder w n ident).1 = [ident] ∨
    uploadIds (upload_ladder w n ident).1 = [ident, ident] ∨
    uploadIds (upload_ladder w n ident).1 = [ident, ident, w.uuidGen n] := by
  unfold upload_ladder
  rcases h0 : w.up 0 with e | r
  · by_cases hs : isRateLimitMsg e.msg
    · rcases h1 : w.up 1 with e1 | r1
      · rcases h2 : w.up 2 with e2 | r2
        · right; right; simp [hs, uploadIds]
        · right; right; simp [hs, uploadIds]
      · right; left; simp [hs, uploadIds]
    · left; simp [hs, uploadIds]
  · left; simp [uploadIds]

/-- C8: when an archival entry already exists under the computed
identifier, an entry owned by a different account makes the upload
proceed under a freshly minted uuid — the first attempt targets the
uuid, and (whenever the minted uuids differ from the computed
identifier, as uuid4 values do) no attempt ever targets the computed
identifier, so the foreign entry is neither reused nor overwritten;
an entry owned by the configured account makes the item continue with
no upload attempt and no flag change. -/
theorem collisionHandling (be : Backend) (email : Chars) (skip : List Chars)
    (w : World) (rPrev : Option UploadRes) (v : Video) (owner : Chars)
    (hskip : v._id ∉ skip) (hd : v.downloaded = true) (hu : v.uploaded = false)
    (hf : w.fileExists = true) (hcu : w.curUploader = some owner) :
    (owner = email →
      (step be email skip w rPrev v).events
        = [.getItem (identifier_final (w.clean_fname v.title) v)] ∧
      (step be email skip w rPrev v).video = v ∧
      (step be email skip w rPrev v).store
        = { downloaded := v.downloaded, uploaded := v.uploaded } ∧
      (step be email skip w rPrev v).fileOnDisk = w.fileExists ∧
      (step be email skip w rPrev v).outcome = .continued) ∧
    (owner ≠ email →
      (uploadIds (step be email skip w rPrev v).events).head? = some (w.uuidGen 0) ∧
      (w.uuidGen 0 ≠ identifier_final (w.clean_fname v.title) v →
        w.uuidGen 1 ≠ identifier_final (w.clean_fname v.title) v →
        identifier_final (w.clean_fname v.title) v
          ∉ uploadIds (step be email skip w rPrev v).events)) := by
  constructor
  · intro heq
    subst heq
    simp [step, andThenE, stale_check, download_phase, upload_phase, hskip, hd, hu, hf, hcu]
  · intro hne
    have hev : (step be email skip w rPrev v).events
        = (after_ladder be
            { video := v, store := { downloaded := v.downloaded, uploaded := v.uploaded },
              fileOnDisk := w.fileExists, r := rPrev, outcome := .ok }
            (upload_ladder w 1 (w.uuidGen 0)).2
            (Event.getItem (identifier_final (w.clean_fname v.title) v)
              :: (upload_ladder w 1 (w.uuidGen 0)).1)).2 := by
      simp [step, andThenE, stale_check, download_phase, upload_phase, hskip, hd, hu, hf,
        hcu, hne]
    rw [hev, uploadIds_after_ladder]
    have hids := uploadIds_upload_ladder w 1 (w.uuidGen 0)
    constructor
    · rcases hids with h | h | h <;> simp [uploadIds, h]
    · intro hne1 hne2
      rcases hids with h | h | h <;>
        simp [uploadIds, h, Ne.symm hne1, Ne.symm hne2]

/-- Witness for C8, at a record whose identifier collides with an entry
owned by a different account. -/
theorem collisionHandlingWitness :
    vDone._id ∉ ([] : List Chars) ∧ vDone.downloaded = true ∧ vDone.uploaded = false ∧
    wOtherOwner.fileExists = true ∧
    wOtherOwner.curUploader = some "someone.else@example.org".toList ∧
    (("someone.else@example.org".toList = emailA →
      (step .mongodb emailA [] wOtherOwner none vDone).events
        = [.getItem (identifier_final (wOtherOwner.clean_fname vDone.title) vDone)] ∧
      (step .mongodb emailA [] wOtherOwner none vDone).video = vDone ∧
      (step .mongodb emailA [] wOtherOwner none vDone).store
        = { downloaded := vDone.downloaded, uploaded := vDone.uploaded } ∧
      (step .mongodb emailA [] wOtherOwner none vDone).fileOnDisk = wOtherOwner.fileExists ∧
      (step .mongodb emailA [] wOtherOwner none vDone).outcome = .continued) ∧
    ("someone.else@example.org".toList ≠ emailA →
      (uploadIds (step .mongodb emailA [] wOtherOwner none vDone).events).head?
        = some (wOtherOwner.uuidGen 0) ∧
      (wOtherOwner.uuidGen 0 ≠ identifier_final (wOtherOwner.clean_fname vDone.title) vDone →
        wOtherOwner.uuidGen 1 ≠ identifier_final (wOtherOwner.clean_fname vDone.title) vDone →
        identifier_final (wOtherOwner.clean_fname vDone.title) vDone
          ∉ uploadIds (step .mongodb emailA [] wOtherOwner none vDone).events))) :=
  ⟨by decide, rfl, rfl, rfl, rfl,
    collisionHandling .mongodb emailA [] wOtherOwner none vDone
      "someone.else@example.org".toList (by decide) rfl rfl rfl rfl⟩

/-- C1 amended: a first upload attempt raising an HTTPError without a
rate-limit signature triggers no retry at all — no 60-second sleep and
exactly one upload attempt — because the handler at line 166 retries
only on the signature.  The swallowed exception leaves line 189 to read
the local `r`: unbound on the first occurrence, so the body raises
UnboundLocalError, and otherwise stale from an earlier iteration, whose
old status code then drives the success path — a stale 200 even
persists `uploaded=true` and deletes the artifact (mongodb backend)
although this item's upload failed. -/
theorem nonRateLimitNoRetry (be : Backend) (email : Chars) (skip : List Chars)
    (w : World) (rPrev : Option UploadRes) (v : Video) (e : HTTPErr)
    (hskip : v._id ∉ skip) (hd : v.downloaded = true) (hu : v.uploaded = false)
    (hf : w.fileExists = true) (hcu : w.curUploader = none)
    (he : w.up 0 = .error e) (hsig : isRateLimitMsg e.msg = false) :
    Event.sleep60 ∉ (step be email skip w rPrev v).events ∧
    uploadIds (step be email skip w rPrev v).events
      = [identifier_final (w.clean_fname v.title) v] ∧
    (rPrev = none →
      (step be email skip w rPrev v).outcome = .raised (.unboundLocal "r".toList)) ∧
    (∀ rp, rPrev = some rp → rp.status_code = 200 → be = .mongodb →
      (step be email skip w rPrev v).store.uploaded = true ∧
      (step be email skip w rPrev v).fileOnDisk = false ∧
      Event.deleteArtifact ∈ (step be email skip w rPrev v).events) := by
  rcases rPrev with _ | rp
  · simp [step, andThenE, stale_check, download_phase, upload_phase, after_ladder,
      status_check, upload_ladder, he, hsig, hskip, hd, hu, hf, hcu, uploadIds]
  · by_cases h200 : rp.status_code = 200
    · cases be <;>
        simp [step, andThenE, stale_check, download_phase, upload_phase, after_ladder,
          status_check, upload_ladder, he, hsig, hskip, hd, hu, hf, hcu, h200, uploadIds]
    · simp [step, andThenE, stale_check, download_phase, upload_phase, after_ladder,
        status_check, upload_ladder, he, hsig, hskip, hd, hu, hf, hcu, h200, uploadIds]

/-- Witness for the amended C1, at the first occurrence of a plain 404
(no stale result yet). -/
theorem nonRateLimitNoRetryWitness :
    vDone._id ∉ ([] : List Chars) ∧ vDone.downloaded = true ∧ vDone.uploaded = false ∧
    wPlain404.fileExists = true ∧ wPlain404.curUploader = none ∧
    wPlain404.up 0 = .error { msg := "404 Client Error: Not Found".toList } ∧
    isRateLimitMsg "404 Client Error: Not Found".toList = false ∧
    (Event.sleep60 ∉ (step .mongodb emailA [] wPlain404 none vDone).events ∧
     uploadIds (step .mongodb emailA [] wPlain404 none vDone).events
       = [identifier_final (wPlain404.clean_fname vDone.title) vDone] ∧
     (none = (none : Option UploadRes) →
       (step .mongodb emailA [] wPlain404 none vDone).outcome
         = .raised (.unboundLocal "r".toList)) ∧
     (∀ rp, (none : Option UploadRes) = some rp → rp.status_code = 200 →
       Backend.mongodb = .mongodb →
       (step .mongodb emailA [] wPlain404 none vDone).store.uploaded = true ∧
       (step .mongodb emailA [] wPlain404 none vDone).fileOnDisk = false ∧
       Event.deleteArtifact ∈ (step .mongodb emailA [] wPlain404 none vDone).events)) :=
  ⟨by decide, rfl, rfl, rfl, rfl, rfl, by decide,
    nonRateLimitNoRetry .mongodb emailA [] wPlain404 none vDone
      { msg := "404 Client Error: Not Found".toList } (by decide) rfl rfl rfl rfl rfl
      (by decide)⟩

theorem coreInv_status_check (be : Backend) (r : UploadRes) (c : ItemCore)
    (h : coreInv c)
    (hok : ∀ e, (status_check be r c).1.outcome ≠ .raised e) :
    coreInv (status_check be r c).1 := by
  by_cases h200 : r.status_code = 200
  · cases be
    · simp [status_check, coreInv, h200]
    · exact absurd (show (status_check .jsonbin r c).1.outcome
          = .raised (.nameError "jb".toList) by simp [status_check, h200])
        (hok (.nameError "jb".toList))
  · simpa [status_check, coreInv, h200] using h

theorem coreInv_after_ladder (be : Backend) (c : ItemCore) (lr : LadderRes)
    (evs : List Event) (h : coreInv c)
    (hok : ∀ e, (after_ladder be c lr evs).1.outcome ≠ .raised e) :
    coreInv (after_ladder be c lr evs).1 := by
  cases lr with
  | got r =>
    have heq : (after_ladder be c (.got r) evs).1 = (status_check be r c).1 := by
      simp [after_ladder]
    rw [heq] at hok ⊢
    exact coreInv_status_check be r c h hok
  | exhausted => simpa [after_ladder, coreInv] using h
  | fellThrough =>
    cases hc : c.r with
    | none =>
      exact absurd (show (after_ladder be c .fellThrough evs).1.outcome
            = .raised (.unboundLocal "r".toList) by simp [after_ladder, hc])
        (hok (.unboundLocal "r".toList))
    | some rOld =>
      have heq : (after_ladder be c .fellThrough evs).1 = (status_check be rOld c).1 := by
        simp [after_ladder, hc]
      rw [heq] at hok ⊢
      exact coreInv_status_check be rOld c h hok

theorem coreInv_upload_phase (be : Backend) (email : Chars) (w : World) (c : ItemCore)
    (h : coreInv c)
    (hok : ∀ e, (upload_phase be email w c).1.outcome ≠ .raised e) :
    coreInv (upload_phase be email w c).1 := by
  by_cases hu : c.video.uploaded
  · simpa [upload_phase, hu] using h
  · cases hcu : w.curUploader with
    | none =>
      simp only [upload_phase, hu, Bool.false_eq_true, if_false, hcu] at hok ⊢
      exact coreInv_after_ladder _ _ _ _ h hok
    | some owner =>
      by_cases hoe : owner = email
      · simpa [upload_phase, hu, hcu, hoe, coreInv] using h
      · simp only [upload_phase, hu, Bool.false_eq_true, if_false, hcu, hoe,
          ne_eq, not_false_eq_true, if_true] at hok ⊢
        exact coreInv_after_ladder _ _ _ _ h hok

/-- C6 amended: the artifact/flag iff is an invariant of one item's
handling rather than an unconditional postcondition: if it holds when
the item's handling starts, the store never marks `uploaded` without
`downloaded`, and the handling does not raise, then it holds again at
the end of the item's handling (in particular, after a completed
`uploaded=true` transition the artifact is gone).  Started from a state
that already violates the iff — for example `downloaded=true` with the
file lost — the handling can end in violation, because the staleness
reset is never persisted and two failed download attempts strand
`downloaded=true` in the store with no artifact (see the
counterexample). -/
theorem artifactFlagInvariant (be : Backend) (email : Chars) (skip : List Chars)
    (w : World) (rPrev : Option UploadRes) (v : Video)
    (hinv : w.fileExists = (v.downloaded && !v.uploaded))
    (himp : v.uploaded = true → v.downloaded = true)
    (hok : ∀ e, (step be email skip w rPrev v).outcome ≠ .raised e) :
    (step be email skip w rPrev v).fileOnDisk
      = ((step be email skip w rPrev v).store.downloaded
        && !(step be email skip w rPrev v).store.uploaded) := by
  by_cases hsk : v._id ∈ skip
  · simpa [step, hsk] using hinv
  · cases hd : v.downloaded with
    | false =>
      cases hu : v.uploaded with
      | true => exact absurd (himp hu) (by simp [hd])
      | false =>
        have hf : w.fileExists = false := by simpa [hd, hu] using hinv
        rcases hdl1 : w.dl1 with a | u
        · rcases hdl2 : w.dl2 with b | u2
          · simp [step, andThenE, stale_check, download_phase, hsk, hd, hu, hf,
              hdl1, hdl2]
          · cases be
            · simp [step, andThenE, stale_check, download_phase, persist_downloaded,
                hsk, hd, hu, hf, hdl1, hdl2] at hok ⊢
              exact coreInv_upload_phase _ _ _ _ (by simp [coreInv]) hok
            · exact absurd (show (step .jsonbin email skip w rPrev v).outcome
                    = .raised (.nameError "jb".toList) by
                  simp [step, andThenE, stale_check, download_phase,
                    persist_downloaded, hsk, hd, hu, hf, hdl1, hdl2])
                (hok (.nameError "jb".toList))
        · cases be
          · simp [step, andThenE, stale_check, download_phase, persist_downloaded,
              hsk, hd, hu, hf, hdl1] at hok ⊢
            exact coreInv_upload_phase _ _ _ _ (by simp [coreInv]) hok
          · exact absurd (show (step .jsonbin email skip w rPrev v).outcome
                  = .raised (.nameError "jb".toList) by
                simp [step, andThenE, stale_check, download_phase,
                  persist_downloaded, hsk, hd, hu, hf, hdl1])
              (hok (.nameError "jb".toList))
    | true =>
      cases hu : v.uploaded with
      | true =>
        simpa [step, andThenE, stale_check, download_phase, upload_phase,
          hsk, hd, hu] using hinv
      | false =>
        have hf : w.fileExists = true := by simpa [hd, hu] using hinv
        simp [step, andThenE, stale_check, download_phase, hsk, hd, hu, hf] at hok ⊢
        exact coreInv_upload_phase _ _ _ _ (by simp [coreInv]) hok

/-- Witness for the amended C6: a fresh item is downloaded and uploaded
and ends with flags `(true, true)` and no artifact on disk. -/
theorem artifactFlagInvariantWitness :
    wHappy.fileExists = (vBase.downloaded && !vBase.uploaded) ∧
    (vBase.uploaded = true → vBase.downloaded = true) ∧
    (∀ e, (step .mongodb emailA [] wHappy none vBase).outcome ≠ .raised e) ∧
    (step .mongodb emailA [] wHappy none vBase).fileOnDisk
      = ((step .mongodb emailA [] wHappy none vBase).store.downloaded
        && !(step .mongodb emailA [] wHappy none vBase).store.uploaded) :=
  ⟨rfl, fun h => absurd h (by decide), fun e => by simp [show (step .mongodb emailA [] wHappy none vBase).outcome = .ok by decide],
    artifactFlagInvariant .mongodb emailA [] wHappy none vBase rfl
      (fun h => absurd h (by decide))
      (fun e => by simp [show (step .mongodb emailA [] wHappy none vBase).outcome = .ok by decide])⟩

/-- The worked example of the specification: a 2023-01-15 item of
channel MyChan with sanitized title Cafe_Talk yields this pre-strip
identifier. -/
theorem identifierSampleScenario :
    identifier_pre "Cafe_Talk".toList
      { _id := "v1".toList, upload_date := "20230115".toList, title := [],
        url := [], channel_name := "MyChan".toList,
        downloaded := false, uploaded := false, extra := [] }
      = "2023-01-15_MyChan_Cafe_Talk".toList := by decide
